import Mathlib

/-!
Shallow embedding of the newsletter-agent repository:
  src/src/agents.py        (data model: AiItem, ArxivPaper, NewsletterHeader)
  src/src/workflow.py      (NewsletterState, the graph nodes and the coordinator)
  src/src/main.py          (CLI argument parsing and mode dispatch)
  src/infrastrucuture/aws/sender_lambda.py (subscriber parsing, batch send, response)

External agent calls are modelled by outcome parameters: an agent either
returns a structured output, raises asyncio.TimeoutError, or raises some
other exception.  State mutation in a node happens only after the awaited
call resolves, so each node run is modelled as a pure function from the
pre-state (plus the outcome) to the post-state and the returned next node.
-/

namespace NewsAgent

/-! ### Data model (src/src/agents.py) -/

/-- category field of AiItem: Literal of tool, framework, tutorial, news. -/
inductive AiCategory where
  | tool
  | framework
  | tutorial
  | news
deriving DecidableEq, Repr

structure AiItem where
  title : String
  summary : String
  source : String
  category : AiCategory
  published_date : Int
deriving DecidableEq, Repr

/-- ArxivPaper extends AiItem with findings; its category is the fixed
literal string Arxiv Paper, so it is not stored as a field here. -/
structure ArxivPaper where
  title : String
  summary : String
  source : String
  findings : String
  published_date : Int
deriving DecidableEq, Repr

structure NewsletterHeader where
  title : String
  headlines : String
deriving DecidableEq, Repr

/-! ### Workflow state (src/src/workflow.py, NewsletterState) -/

structure NewsletterState where
  arxiv_papers : List ArxivPaper := []
  ai_items : List AiItem := []
  header : Option NewsletterHeader := none
  newsletter_content : String := ""
  arxiv_completed : Bool := false
  ai_items_completed : Bool := false
  arxiv_failed : Bool := false
  ai_items_failed : Bool := false
deriving DecidableEq, Repr

/-- Outcome of one awaited agent call: structured output, an
asyncio.TimeoutError, or any other exception. -/
inductive AgentOutcome (α : Type) where
  | success (out : List α)
  | timeoutErr
  | failure

def AgentOutcome.isErr {α : Type} : AgentOutcome α → Bool
  | .success _ => false
  | .timeoutErr => true
  | .failure => true

/-- Outcome of the header agent call (output type NewsletterHeader). -/
inductive HeaderOutcome where
  | success (out : NewsletterHeader)
  | timeoutErr
  | failure

/-- The node classes of the pydantic_graph workflow. -/
inductive WorkflowNode where
  | checkBothCompleted
  | waitForCompletion
  | generateNewsletterHeader
  | generateNewsletterContent
deriving DecidableEq, Repr

/-! ### Search branch nodes (workflow.py lines 57-123) -/

/-- SearchArxivPapers.run: on success extend arxiv_papers with the output;
on TimeoutError or any other exception set arxiv_failed; in every case set
arxiv_completed and return CheckBothCompleted(). -/
def SearchArxivPapersRun (o : AgentOutcome ArxivPaper) (s : NewsletterState) :
    NewsletterState × WorkflowNode :=
  let s1 :=
    match o with
    | .success out => { s with arxiv_papers := s.arxiv_papers ++ out }
    | .timeoutErr => { s with arxiv_failed := true }
    | .failure => { s with arxiv_failed := true }
  ({ s1 with arxiv_completed := true }, .checkBothCompleted)

/-- SearchAiItems.run: on success extend ai_items with the output; on
TimeoutError or any other exception set ai_items_failed; in every case set
ai_items_completed and return CheckBothCompleted(). -/
def SearchAiItemsRun (o : AgentOutcome AiItem) (s : NewsletterState) :
    NewsletterState × WorkflowNode :=
  let s1 :=
    match o with
    | .success out => { s with ai_items := s.ai_items ++ out }
    | .timeoutErr => { s with ai_items_failed := true }
    | .failure => { s with ai_items_failed := true }
  ({ s1 with ai_items_completed := true }, .checkBothCompleted)

/-! ### Join nodes (workflow.py lines 141-190) -/

/-- CheckBothCompleted.run: proceed to GenerateNewsletterHeader only when
both completion flags are set, otherwise go to WaitForCompletion. -/
def CheckBothCompletedRun (s : NewsletterState) : NewsletterState × WorkflowNode :=
  if s.arxiv_completed && s.ai_items_completed then
    (s, .generateNewsletterHeader)
  else
    (s, .waitForCompletion)

/-- WaitForCompletion.run: after an asyncio.sleep(0.1), which does not touch
the state, re-check both completion flags; loop back to itself otherwise. -/
def WaitForCompletionRun (s : NewsletterState) : NewsletterState × WorkflowNode :=
  if s.arxiv_completed && s.ai_items_completed then
    (s, .generateNewsletterHeader)
  else
    (s, .waitForCompletion)

/-! ### Header node (workflow.py lines 202-264) -/

/-- Default header used when no content at all is available. -/
def noContentHeader : NewsletterHeader :=
  { title := "AI Agent Newsletter: Content Search Issues"
    headlines := "We encountered some technical difficulties gathering content. Please check back later for the latest AI developments!" }

/-- Fallback header used when the header agent call times out or raises. -/
def fallbackHeader : NewsletterHeader :=
  { title := "AI Agent Newsletter: Latest Updates"
    headlines := "Discover the latest developments in AI agents and technologies" }

def categoryText : AiCategory → String
  | .tool => "tool"
  | .framework => "framework"
  | .tutorial => "tutorial"
  | .news => "news"

/-- Timeout, in seconds, of the asyncio.wait_for around the header call. -/
def headerTimeoutSeconds : Nat := 30

/-- The prompt GenerateNewsletterHeader.run builds from the state. -/
def buildHeaderPrompt (s : NewsletterState) : String :=
  let p0 := "Generate a catchy newsletter header that consists of a title for the newsletter with about 5 to 15 words, then a summary of the following content:\n\n"
  let p1 :=
    if !s.ai_items.isEmpty then
      p0 ++ "AI-Related Items (category, title):\n" ++
        String.join (s.ai_items.map (fun item => "- " ++ categoryText item.category ++ ": " ++ item.title ++ "\n"))
    else p0
  let p2 :=
    if !s.arxiv_papers.isEmpty then
      p1 ++ "\nArXiv Papers:\n" ++
        String.join (s.arxiv_papers.map (fun paper => "- " ++ paper.title ++ "\n"))
    else p1
  if s.arxiv_failed && s.ai_items_failed then
    p2 ++ "\nNote: Both content searches had technical issues, generating header for available content."
  else if s.arxiv_failed then
    p2 ++ "\nNote: ArXiv search had technical issues, focusing on AI items."
  else if s.ai_items_failed then
    p2 ++ "\nNote: AI items search had technical issues, focusing on research papers."
  else p2

/-- GenerateNewsletterHeader.run: if both collections are empty, install
noContentHeader without calling the agent; otherwise call the header agent
on the built prompt under a 30 second wait_for, installing its output on
success and fallbackHeader on TimeoutError or any other exception.  Every
branch returns GenerateNewsletterContent(). -/
def GenerateNewsletterHeaderRun (agent : String → HeaderOutcome) (s : NewsletterState) :
    NewsletterState × WorkflowNode :=
  if s.ai_items.isEmpty && s.arxiv_papers.isEmpty then
    ({ s with header := some noContentHeader }, .generateNewsletterContent)
  else
    match agent (buildHeaderPrompt s) with
    | .success out => ({ s with header := some out }, .generateNewsletterContent)
    | .timeoutErr => ({ s with header := some fallbackHeader }, .generateNewsletterContent)
    | .failure => ({ s with header := some fallbackHeader }, .generateNewsletterContent)

/-! ### Content node (workflow.py lines 272-300) -/

/-- Header default installed at the top of the try block when none is set. -/
def defaultContentHeader : NewsletterHeader :=
  { title := "AI Agent Newsletter"
    headlines := "Latest developments in AI and agent technologies" }

/-- Message of the UnboundLocalError raised when the local variable summary
is read: the source never assigns it. -/
def summaryUnboundLocalMsg : String :=
  "local variable summary referenced before assignment"

/-- Reading the local variable summary, which is never assigned anywhere in
GenerateNewsletterContent.run, raises UnboundLocalError in Python.  The
read is modelled as a failing Except computation. -/
def readUnassignedSummary : Except String String :=
  .error summaryUnboundLocalMsg

/-- GenerateNewsletterContent.run: inside the try block, first install a
default header if none is present; then the failure-notes block (or the
plain return) reads the unassigned local summary, raising
UnboundLocalError, which the except handler turns into the End string
prefixed with Error generating newsletter.  The state mutations performed
before the exception persist. -/
def GenerateNewsletterContentRun (s : NewsletterState) : NewsletterState × String :=
  let s1 := if s.header.isNone then { s with header := some defaultContentHeader } else s
  let tryResult : Except String String :=
    if s1.arxiv_failed || s1.ai_items_failed then
      readUnassignedSummary.bind (fun summary0 =>
        let failure_notes :=
          (if s1.arxiv_failed then ["ArXiv search failed"] else []) ++
          (if s1.ai_items_failed then ["AI items search failed"] else [])
        .ok (summary0 ++ " (Note: " ++ String.intercalate ", " failure_notes ++ ")"))
    else
      readUnassignedSummary
  match tryResult with
  | .ok summary1 => (s1, summary1)
  | .error msg => (s1, "Error generating newsletter: " ++ msg)

/-! ### Coordinator (workflow.py lines 322-376) -/

/-- The nondeterministic inputs of one workflow run: the outcome each
branch agent would produce, whether the overall 120 second wait_for fires,
which branches had already finished when it fired (each branch run is
all-or-nothing: its state writes happen after its single await with no
suspension point in between), and the header agent. -/
structure WorkflowEnv where
  arxivOutcome : AgentOutcome ArxivPaper
  aiOutcome : AgentOutcome AiItem
  overallTimeout : Bool
  arxivFinishedBeforeTimeout : Bool
  aiFinishedBeforeTimeout : Bool
  headerAgent : String → HeaderOutcome

/-- Overall timeout, in seconds, of the wait_for around the gathered searches. -/
def overallTimeoutSeconds : Nat := 120

/-- start_searches: gather both branch runs under a 120 second wait_for.
Without a timeout both runs complete (they catch every exception) and a
CheckBothCompleted node is returned.  On TimeoutError the effects of any
branch that finished persist, and both completion flags and both failure
flags are forcibly set before returning CheckBothCompleted(). -/
def start_searches (env : WorkflowEnv) (s : NewsletterState) :
    NewsletterState × WorkflowNode :=
  if env.overallTimeout then
    let s1 := if env.arxivFinishedBeforeTimeout then (SearchArxivPapersRun env.arxivOutcome s).1 else s
    let s2 := if env.aiFinishedBeforeTimeout then (SearchAiItemsRun env.aiOutcome s1).1 else s1
    ({ s2 with
        arxiv_completed := true
        ai_items_completed := true
        arxiv_failed := true
        ai_items_failed := true }, .checkBothCompleted)
  else
    let s1 := (SearchArxivPapersRun env.arxivOutcome s).1
    let s2 := (SearchAiItemsRun env.aiOutcome s1).1
    (s2, .checkBothCompleted)

/-- One step of the pydantic_graph run loop: dispatch on the current node. -/
inductive StepResult where
  | next (n : WorkflowNode) (s : NewsletterState)
  | done (s : NewsletterState) (out : String)

def stepNode (env : WorkflowEnv) : WorkflowNode → NewsletterState → StepResult
  | .checkBothCompleted, s =>
      let r := CheckBothCompletedRun s
      .next r.2 r.1
  | .waitForCompletion, s =>
      let r := WaitForCompletionRun s
      .next r.2 r.1
  | .generateNewsletterHeader, s =>
      let r := GenerateNewsletterHeaderRun env.headerAgent s
      .next r.2 r.1
  | .generateNewsletterContent, s =>
      let r := GenerateNewsletterContentRun s
      .done r.1 r.2

/-- Fuel-bounded graph execution (WaitForCompletion can loop). -/
def graphRun (env : WorkflowEnv) : Nat → WorkflowNode → NewsletterState →
    Option (NewsletterState × String)
  | 0, _, _ => none
  | fuel + 1, n, s =>
      match stepNode env n s with
      | .done s1 out => some (s1, out)
      | .next n1 s1 => graphRun env fuel n1 s1

/-- run_coordination_workflow: start from a fresh NewsletterState, run
start_searches, and if (as always happens) a CheckBothCompleted node comes
back, continue the graph from it; otherwise return the End error value. -/
def run_coordination_workflow (env : WorkflowEnv) :
    Option (NewsletterState × String) :=
  let s0 : NewsletterState := {}
  let r := start_searches env s0
  match r.2 with
  | .checkBothCompleted => graphRun env 8 .checkBothCompleted r.1
  | _ => some (r.1, "Error in parallel execution")

/-! ### Sender lambda (src/infrastrucuture/aws/sender_lambda.py) -/

/-! Text is handled at the character-list level (String.data), so that the
Python str operations used by the lambda (split, strip, the in operator)
are structurally recursive and computable in proofs. -/

/-- Python str.split with a one-character separator: splits at every
occurrence, keeping empty pieces. -/
def pySplit (sep : Char) : List Char → List (List Char)
  | [] => [[]]
  | c :: rest =>
      if c = sep then [] :: pySplit sep rest
      else
        match pySplit sep rest with
        | [] => [[c]]
        | p :: ps => (c :: p) :: ps

/-- Whitespace characters stripped by Python str.strip (the common ones). -/
def pyIsSpace (c : Char) : Bool :=
  c = ' ' || c = '\t' || c = '\n' || c = '\r'

/-- Python str.strip: drop leading and trailing whitespace. -/
def pyStrip (l : List Char) : List Char :=
  ((l.dropWhile fun c => pyIsSpace c).reverse.dropWhile fun c => pyIsSpace c).reverse

/-- Python substring containment (needle in haystack). -/
def containsSub (needle : List Char) : List Char → Bool
  | [] => needle.isEmpty
  | c :: rest => needle.isPrefixOf (c :: rest) || containsSub needle rest

structure Subscriber where
  email : List Char
  name : List Char
deriving DecidableEq, Repr

/-- One iteration of the get_subscribers loop on one CSV line: split on
commas, strip each column; the email is column 0; the name is column 1
when present and nonempty, else the part of the email before the at sign;
keep the row only when the email is nonempty and contains an at sign. -/
def parseSubscriberLine (line : List Char) : Option Subscriber :=
  let parts := (pySplit ',' line).map pyStrip
  let email := parts.headD []
  let name :=
    if decide (parts.length > 1) && !(parts.getD 1 []).isEmpty then parts.getD 1 []
    else (pySplit '@' email).headD []
  if !email.isEmpty && email.contains '@' then some { email := email, name := name }
  else none

def subscribersOfLines (lines : List (List Char)) : List Subscriber :=
  lines.filterMap parseSubscriberLine

/-- get_subscribers: read the CSV body, strip it, split it into lines, and
collect the subscribers of the valid rows.  The S3 fetch is done by the
caller (an exception there propagates to the lambda handler). -/
def get_subscribers (body : String) : List Subscriber :=
  subscribersOfLines (pySplit '\n' (pyStrip body.data))

/-- Email column of a row, as get_subscribers computes it. -/
def emailOf (line : List Char) : List Char :=
  ((pySplit ',' line).map pyStrip).headD []

/-- A row is kept exactly when its email is nonempty and contains an at sign. -/
def validSubscriberLine (line : List Char) : Bool :=
  !(emailOf line).isEmpty && (emailOf line).contains '@'

/-- The subscriber built from a well-formed row, unchanged. -/
def mkSubscriber (line : List Char) : Subscriber :=
  let parts := (pySplit ',' line).map pyStrip
  let email := parts.headD []
  let name :=
    if decide (parts.length > 1) && !(parts.getD 1 []).isEmpty then parts.getD 1 []
    else (pySplit '@' email).headD []
  { email := email, name := name }

/-- Inner body of the send loop over one batch: a failing send_email is
caught inside the per-recipient try, so the loop continues and the counter
is bumped only on success.  ok tells whether the SES call for a given
subscriber succeeds. -/
def batchCount (ok : Subscriber → Bool) (batch : List Subscriber) (acc : Nat) : Nat :=
  batch.foldl (fun a sub => if ok sub then a + 1 else a) acc

/-- The batched outer loop of send_to_subscribers: slices of batch_size 10,
with only a sleep between batches. -/
def sendBatches (ok : Subscriber → Bool) : List Subscriber → Nat → Nat
  | [], acc => acc
  | sub :: rest, acc =>
      sendBatches ok ((sub :: rest).drop 10) (batchCount ok ((sub :: rest).take 10) acc)
termination_by subs _ => subs.length
decreasing_by simp [List.length_drop]; omega

def send_to_subscribers (ok : Subscriber → Bool) (subs : List Subscriber) : Nat :=
  sendBatches ok subs 0

structure LambdaResponse where
  statusCode : Nat
  contentType : String
  body : String
deriving DecidableEq, Repr

/-- create_response: a fixed HTML page around the message, always with
statusCode 200 (whitespace of the template compressed). -/
def create_response (message : String) : LambdaResponse :=
  { statusCode := 200
    contentType := "text/html"
    body := "<!DOCTYPE html><html><head><title>Newsletter Status</title></head><body><h2>Newsletter Status</h2><p>" ++ message ++ "</p></body></html>" }

/-- Incoming API Gateway event: queryStringParameters may be absent. -/
structure SenderEvent where
  queryStringParameters : Option (List (String × String))

/-- External world of the sender lambda: URL unquoting, the two S3 reads
(either may raise, caught by the outer except), and per-recipient SES
success. -/
structure SenderEnv where
  unquote : String → String
  fetchNewsletterHtml : String → Except String String
  fetchSubscribersCsv : Except String String
  sendOk : Subscriber → Bool

def lookupParam (qp : List (String × String)) (k : String) : Option String :=
  (qp.find? (fun p => p.1 == k)).map Prod.snd

/-- lambda_handler: missing or empty query parameters or a missing
newsletter key yield the missing-parameter response; any exception in the
try block yields the Error response; no subscribers yields its own
message; otherwise report the success count.  Every path goes through
create_response. -/
def lambda_handler (env : SenderEnv) (event : SenderEvent) : LambdaResponse :=
  match event.queryStringParameters with
  | none => create_response "Error: Missing newsletter parameter"
  | some qp =>
    match lookupParam qp "newsletter" with
    | none => create_response "Error: Missing newsletter parameter"
    | some raw =>
      match env.fetchNewsletterHtml (env.unquote raw) with
      | .error e => create_response ("Error: " ++ e)
      | .ok _html =>
        match env.fetchSubscribersCsv with
        | .error e => create_response ("Error: " ++ e)
        | .ok csv =>
          if (get_subscribers csv).isEmpty then create_response "No subscribers found"
          else
            create_response ("Newsletter sent successfully to "
              ++ toString (send_to_subscribers env.sendOk (get_subscribers csv))
              ++ " subscribers!")

/-! ### CLI (src/src/main.py) -/

inductive CliCommand where
  | test
  | mermaid
deriving DecidableEq, Repr

structure CliArgs where
  model : String
  command : Option CliCommand
deriving DecidableEq, Repr

def defaultModel : String := "gemini-2.0-flash"

/-- Result of running the argparse parser: parsed arguments, the help
action (argparse prints usage and exits 0), or an argparse error
(argparse prints the message and exits 2). -/
inductive CliResult where
  | ok (args : CliArgs)
  | showHelp
  | error (msg : String)
deriving DecidableEq, Repr

/-- An argv token argparse treats as a long option: it begins with two
dashes. -/
def isLongOption (a : String) : Bool :=
  a.data.take 2 == ['-', '-']

/-- An argv token argparse treats as an option: it begins with the prefix
character - and is not the lone token -.  (Tokens looking like negative
numbers are not special-cased: no option of this parser looks like one.) -/
def isOptionLike (a : String) : Bool :=
  a.data.headD ' ' == '-' && decide (a.data.length ≥ 2)

/-- What a long-option token resolves to among the two long options of
this parser, --help (auto-added by argparse) and --model. -/
inductive LongOptionResolution where
  | helpOpt
  | modelOpt
  | unknown
  | ambiguous
deriving DecidableEq, Repr

/-- allow_abbrev resolution (argparse default): a long-option token
matches an option exactly or as a unique prefix of its name; a prefix of
several options is ambiguous. -/
def resolveLongOption (opt : List Char) : LongOptionResolution :=
  if opt.isPrefixOf "--help".data then
    if opt.isPrefixOf "--model".data then .ambiguous else .helpOpt
  else if opt.isPrefixOf "--model".data then .modelOpt
  else .unknown

/-- Split a long-option token at its first equals sign, for the
--option=value form. -/
def splitAtFirstEq : List Char → List Char × Option (List Char)
  | [] => ([], none)
  | c :: rest =>
      if c = '=' then ([], some rest)
      else
        match splitAtFirstEq rest with
        | (pre, val) => (c :: pre, val)

def joinWithSpaces : List String → String
  | [] => ""
  | [a] => a
  | a :: rest => a ++ " " ++ joinWithSpaces rest

/-- argparse processing of the parse_cli_args parser, left to right:
--help (or an abbreviation) triggers the help action; --model (or an
abbreviation, in separate-token or =value form) takes the model value,
erroring when the value is missing or option-like; unknown options are
collected and reported as unrecognized arguments after parsing; a bare --
makes everything after it positional; the single optional positional
command must be one of the choices test and mermaid, an invalid choice is
an immediate error, and a surplus positional is collected as unrecognized.
The quoting argparse puts around names in its messages is elided. -/
def parseCliTokens : List String → String → Option CliCommand → List String → Bool → CliResult
  | [], model, cmd, extras, _ =>
      if extras.isEmpty then .ok { model := model, command := cmd }
      else .error ("unrecognized arguments: " ++ joinWithSpaces extras)
  | a :: rest, model, cmd, extras, sep =>
      if !sep && isOptionLike a then
        if a == "--" then parseCliTokens rest model cmd extras true
        else if isLongOption a then
          match splitAtFirstEq a.data with
          | (optChars, valOpt) =>
            match resolveLongOption optChars with
            | .helpOpt =>
                match valOpt with
                | none => .showHelp
                | some _ => .error "argument --help: ignored explicit argument"
            | .modelOpt =>
                match valOpt with
                | some v => parseCliTokens rest (String.mk v) cmd extras sep
                | none =>
                    match rest with
                    | [] => .error "argument --model: expected one argument"
                    | v :: rest2 =>
                        if isOptionLike v then
                          .error "argument --model: expected one argument"
                        else parseCliTokens rest2 v cmd extras sep
            | .unknown => parseCliTokens rest model cmd (extras ++ [a]) sep
            | .ambiguous => .error ("ambiguous option: " ++ a)
        else
          parseCliTokens rest model cmd (extras ++ [a]) sep
      else
        if cmd.isSome then parseCliTokens rest model cmd (extras ++ [a]) sep
        else if a == "test" then parseCliTokens rest model (some .test) extras sep
        else if a == "mermaid" then parseCliTokens rest model (some .mermaid) extras sep
        else .error ("argument command: invalid choice: " ++ a)

def parse_cli_args (argv : List String) : CliResult :=
  parseCliTokens argv defaultModel none [] false

/-- The three modes main dispatches on. -/
inductive RunMode where
  | mermaidDiagram
  | testAgents
  | generateNewsletter
deriving DecidableEq, Repr

/-- Dispatch of main on the parsed command: mermaid shows the diagram,
test tests the agents, no sub-command runs the full generation. -/
def mainDispatch (cmd : Option CliCommand) : RunMode :=
  match cmd with
  | some .mermaid => .mermaidDiagram
  | some .test => .testAgents
  | none => .generateNewsletter

/-! ## Helper lemmas -/

theorem graphRun_succ (env : WorkflowEnv) (fuel : Nat) (n : WorkflowNode) (s : NewsletterState) :
    graphRun env (fuel + 1) n s =
      match stepNode env n s with
      | .done s1 out => some (s1, out)
      | .next n1 s1 => graphRun env fuel n1 s1 := rfl

/-- GenerateNewsletterHeader.run touches only the header field and always
returns the GenerateNewsletterContent node. -/
theorem headerRun_preserves_flags (agent : String → HeaderOutcome) (s : NewsletterState) :
    (GenerateNewsletterHeaderRun agent s).1.arxiv_completed = s.arxiv_completed ∧
    (GenerateNewsletterHeaderRun agent s).1.ai_items_completed = s.ai_items_completed ∧
    (GenerateNewsletterHeaderRun agent s).1.arxiv_failed = s.arxiv_failed ∧
    (GenerateNewsletterHeaderRun agent s).1.ai_items_failed = s.ai_items_failed ∧
    (GenerateNewsletterHeaderRun agent s).2 = WorkflowNode.generateNewsletterContent := by
  unfold GenerateNewsletterHeaderRun
  cases h : (s.ai_items.isEmpty && s.arxiv_papers.isEmpty) <;>
    cases ha : agent (buildHeaderPrompt s) <;> simp [h, ha]

/-- GenerateNewsletterContent.run touches only the header field of the state. -/
theorem contentRun_preserves_flags (s : NewsletterState) :
    (GenerateNewsletterContentRun s).1.arxiv_completed = s.arxiv_completed ∧
    (GenerateNewsletterContentRun s).1.ai_items_completed = s.ai_items_completed ∧
    (GenerateNewsletterContentRun s).1.arxiv_failed = s.arxiv_failed ∧
    (GenerateNewsletterContentRun s).1.ai_items_failed = s.ai_items_failed := by
  unfold GenerateNewsletterContentRun
  cases hh : s.header.isNone <;> cases h1 : s.arxiv_failed <;> cases h2 : s.ai_items_failed <;>
    simp [hh, h1, h2, readUnassignedSummary, Except.bind]

/-- From a CheckBothCompleted node with both completion flags set, the graph
deterministically runs header generation then content generation and stops. -/
theorem graphRun_from_checkBoth (env : WorkflowEnv) (s : NewsletterState)
    (h1 : s.arxiv_completed = true) (h2 : s.ai_items_completed = true) :
    graphRun env 8 .checkBothCompleted s =
      some (GenerateNewsletterContentRun (GenerateNewsletterHeaderRun env.headerAgent s).1) := by
  rcases hGH : GenerateNewsletterHeaderRun env.headerAgent s with ⟨sH, nH⟩
  have hnH : nH = .generateNewsletterContent := by
    have h := (headerRun_preserves_flags env.headerAgent s).2.2.2.2
    rw [hGH] at h
    exact h
  rcases hGC : GenerateNewsletterContentRun sH with ⟨sC, out⟩
  simp [graphRun, stepNode, CheckBothCompletedRun, h1, h2, hGH, hnH, hGC]

/-- After start_searches, both completion flags are set, the returned node
is CheckBothCompleted, and a fired overall timeout forces both failure flags. -/
theorem start_searches_flags (env : WorkflowEnv) (s : NewsletterState) :
    (start_searches env s).2 = WorkflowNode.checkBothCompleted ∧
    (start_searches env s).1.arxiv_completed = true ∧
    (start_searches env s).1.ai_items_completed = true ∧
    (env.overallTimeout = true → (start_searches env s).1.arxiv_failed = true ∧
      (start_searches env s).1.ai_items_failed = true) := by
  unfold start_searches
  cases ht : env.overallTimeout
  · cases env.arxivOutcome <;> cases env.aiOutcome <;>
      simp [SearchArxivPapersRun, SearchAiItemsRun]
  · simp

theorem batchCount_eq (ok : Subscriber → Bool) (batch : List Subscriber) :
    ∀ acc : Nat, batchCount ok batch acc = acc + (batch.filter ok).length := by
  induction batch with
  | nil => intro acc; simp [batchCount]
  | cons x xs ih =>
    intro acc
    rw [show batchCount ok (x :: xs) acc
        = batchCount ok xs (if ok x then acc + 1 else acc) from rfl, ih]
    cases h : ok x
    all_goals simp [h, List.filter_cons]
    all_goals omega

theorem sendBatches_eq (ok : Subscriber → Bool) : ∀ (subs : List Subscriber) (acc : Nat),
    sendBatches ok subs acc = acc + (subs.filter ok).length := by
  intro subs acc
  induction subs, acc using sendBatches.induct ok with
  | case1 acc => simp [sendBatches]
  | case2 sub rest acc ih =>
    rw [sendBatches, ih, batchCount_eq]
    have hsplit : ((sub :: rest).take 10).filter ok ++ ((sub :: rest).drop 10).filter ok
        = (sub :: rest).filter ok := by
      rw [← List.filter_append, List.take_append_drop]
    rw [← hsplit]
    simp [List.length_append]
    omega

/-- parseSubscriberLine keeps exactly the valid rows, building mkSubscriber. -/
theorem parseSubscriberLine_eq (line : List Char) :
    parseSubscriberLine line =
      if validSubscriberLine line then some (mkSubscriber line) else none := by
  simp only [parseSubscriberLine, validSubscriberLine, emailOf, mkSubscriber]

theorem subscribersOfLines_eq (lines : List (List Char)) :
    subscribersOfLines lines = (lines.filter validSubscriberLine).map mkSubscriber := by
  induction lines with
  | nil => rfl
  | cons l ls ih =>
    simp only [subscribersOfLines, List.filterMap_cons] at ih ⊢
    rw [parseSubscriberLine_eq, List.filter_cons]
    cases h : validSubscriberLine l <;> simp [h, ih]

/-! ## Claim theorems -/

/-- C1: for every run of the coordination workflow, after the coordinator
returns both completion flags are true; and when the overall 120 second
timeout fires before both branches finish, both completion flags and both
failure flags are forcibly set to true and the workflow still terminates
with a result instead of hanging. -/
theorem coordination_workflow_always_completes (env : WorkflowEnv) :
    ∃ s out, run_coordination_workflow env = some (s, out) ∧
      s.arxiv_completed = true ∧ s.ai_items_completed = true ∧
      (env.overallTimeout = true → s.arxiv_failed = true ∧ s.ai_items_failed = true) := by
  obtain ⟨hn, hc1, hc2, hf⟩ := start_searches_flags env {}
  rcases hss : start_searches env ({} : NewsletterState) with ⟨sS, nS⟩
  rw [hss] at hn hc1 hc2 hf
  have hrun : run_coordination_workflow env = graphRun env 8 .checkBothCompleted sS := by
    simp [run_coordination_workflow, hss, hn]
  have hH := headerRun_preserves_flags env.headerAgent sS
  have hC := contentRun_preserves_flags (GenerateNewsletterHeaderRun env.headerAgent sS).1
  refine ⟨(GenerateNewsletterContentRun (GenerateNewsletterHeaderRun env.headerAgent sS).1).1,
          (GenerateNewsletterContentRun (GenerateNewsletterHeaderRun env.headerAgent sS).1).2,
          ?_, ?_, ?_, ?_⟩
  · rw [hrun, graphRun_from_checkBoth env sS hc1 hc2]
  · rw [hC.1, hH.1, hc1]
  · rw [hC.2.1, hH.2.1, hc2]
  · intro hT
    exact ⟨by rw [hC.2.2.1, hH.2.2.1]; exact (hf hT).1,
           by rw [hC.2.2.2, hH.2.2.2.1]; exact (hf hT).2⟩

/-- Concrete run where the overall timeout fires before either branch ends. -/
def envTimeoutExample : WorkflowEnv :=
  { arxivOutcome := .timeoutErr
    aiOutcome := .timeoutErr
    overallTimeout := true
    arxivFinishedBeforeTimeout := false
    aiFinishedBeforeTimeout := false
    headerAgent := fun _ => .timeoutErr }

/-- Witness for C1 at a run whose overall timeout fires. -/
theorem coordination_workflow_always_completes_witness :
    envTimeoutExample.overallTimeout = true ∧
    ∃ s out, run_coordination_workflow envTimeoutExample = some (s, out) ∧
      s.arxiv_completed = true ∧ s.ai_items_completed = true ∧
      s.arxiv_failed = true ∧ s.ai_items_failed = true := by
  obtain ⟨s, out, h1, h2, h3, h4⟩ := coordination_workflow_always_completes envTimeoutExample
  exact ⟨rfl, s, out, h1, h2, h3, (h4 rfl).1, (h4 rfl).2⟩

/-- C2: when a search branch agent call raises a timeout or any other
exception, that branch sets its failure flag and still its completion
flag, its item collection is unchanged (nothing was extended before the
raise), and every field of the other branch is untouched. -/
theorem search_branch_failure_contained (s : NewsletterState)
    (o1 : AgentOutcome ArxivPaper) (o2 : AgentOutcome AiItem)
    (h1 : o1.isErr = true) (h2 : o2.isErr = true) :
    ((SearchArxivPapersRun o1 s).1.arxiv_failed = true ∧
     (SearchArxivPapersRun o1 s).1.arxiv_completed = true ∧
     (SearchArxivPapersRun o1 s).1.arxiv_papers = s.arxiv_papers ∧
     (SearchArxivPapersRun o1 s).1.ai_items = s.ai_items ∧
     (SearchArxivPapersRun o1 s).1.ai_items_completed = s.ai_items_completed ∧
     (SearchArxivPapersRun o1 s).1.ai_items_failed = s.ai_items_failed) ∧
    ((SearchAiItemsRun o2 s).1.ai_items_failed = true ∧
     (SearchAiItemsRun o2 s).1.ai_items_completed = true ∧
     (SearchAiItemsRun o2 s).1.ai_items = s.ai_items ∧
     (SearchAiItemsRun o2 s).1.arxiv_papers = s.arxiv_papers ∧
     (SearchAiItemsRun o2 s).1.arxiv_completed = s.arxiv_completed ∧
     (SearchAiItemsRun o2 s).1.arxiv_failed = s.arxiv_failed) := by
  cases o1 <;> cases o2 <;>
    simp_all [SearchArxivPapersRun, SearchAiItemsRun, AgentOutcome.isErr]

/-- Witness for C2: an arXiv timeout together with an AI items exception. -/
theorem search_branch_failure_contained_witness :
    AgentOutcome.isErr (AgentOutcome.timeoutErr : AgentOutcome ArxivPaper) = true ∧
    AgentOutcome.isErr (AgentOutcome.failure : AgentOutcome AiItem) = true ∧
    (SearchArxivPapersRun AgentOutcome.timeoutErr {}).1.arxiv_failed = true ∧
    (SearchAiItemsRun AgentOutcome.failure {}).1.ai_items_completed = true :=
  ⟨rfl, rfl,
   (search_branch_failure_contained {} AgentOutcome.timeoutErr AgentOutcome.failure rfl rfl).1.1,
   (search_branch_failure_contained {} AgentOutcome.timeoutErr AgentOutcome.failure rfl rfl).2.2.1⟩

/-- C3: CheckBothCompleted.run and WaitForCompletion.run advance to the
GenerateNewsletterHeader node exactly when both completion flags are true,
regardless of the failure flags, and they leave the state unchanged. -/
theorem assembly_gate_requires_both_completed (s : NewsletterState) :
    ((CheckBothCompletedRun s).2 = WorkflowNode.generateNewsletterHeader ↔
      (s.arxiv_completed = true ∧ s.ai_items_completed = true)) ∧
    ((WaitForCompletionRun s).2 = WorkflowNode.generateNewsletterHeader ↔
      (s.arxiv_completed = true ∧ s.ai_items_completed = true)) ∧
    (CheckBothCompletedRun s).1 = s ∧ (WaitForCompletionRun s).1 = s := by
  unfold CheckBothCompletedRun WaitForCompletionRun
  cases h1 : s.arxiv_completed <;> cases h2 : s.ai_items_completed <;> simp [h1, h2]

/-- C4: after GenerateNewsletterHeader.run the header field is always
non-null: the no-content default when both collections are empty, the
agent output on success, and the fixed fallback header on a timeout of the
30 second wait_for or on any other exception. -/
theorem header_step_always_sets_header (agent : String → HeaderOutcome) (s : NewsletterState) :
    (GenerateNewsletterHeaderRun agent s).1.header =
      some (if s.ai_items.isEmpty && s.arxiv_papers.isEmpty then noContentHeader
        else
          match agent (buildHeaderPrompt s) with
          | .success out => out
          | .timeoutErr => fallbackHeader
          | .failure => fallbackHeader) ∧
    ((GenerateNewsletterHeaderRun agent s).1.header).isSome = true := by
  unfold GenerateNewsletterHeaderRun
  cases h : (s.ai_items.isEmpty && s.arxiv_papers.isEmpty) <;>
    cases ha : agent (buildHeaderPrompt s) <;> simp [h, ha]

/-- C6: GenerateNewsletterContent.run returns, for every input state, an
End string beginning with Error generating newsletter, because the local
variable summary is read without ever being assigned and the resulting
UnboundLocalError sends every path into the except handler. -/
theorem content_step_always_returns_error_string (s : NewsletterState) :
    (GenerateNewsletterContentRun s).2 =
      "Error generating newsletter: " ++ summaryUnboundLocalMsg ∧
    List.isPrefixOf "Error generating newsletter:".data
      (GenerateNewsletterContentRun s).2.data = true := by
  have h : (GenerateNewsletterContentRun s).2
      = "Error generating newsletter: " ++ summaryUnboundLocalMsg := by
    unfold GenerateNewsletterContentRun
    cases hh : s.header.isNone <;> cases h1 : s.arxiv_failed <;> cases h2 : s.ai_items_failed <;>
      simp [hh, h1, h2, readUnassignedSummary, Except.bind]
  refine ⟨h, ?_⟩
  rw [h]
  decide

def c5ArxivPaperNamed (n : String) : ArxivPaper :=
  { title := n, summary := "", source := "", findings := "", published_date := 0 }

/-- Failing input for C5: branch A (arXiv) returned 3 papers, branch B
(AI items) timed out, both branches completed, header generated. -/
def c5FailingState : NewsletterState :=
  { arxiv_papers := [c5ArxivPaperNamed "P1", c5ArxivPaperNamed "P2", c5ArxivPaperNamed "P3"]
    ai_items := []
    header := some fallbackHeader
    arxiv_completed := true
    ai_items_completed := true
    arxiv_failed := false
    ai_items_failed := true }

/-- C5: on the scenario state where the AI items branch failed, the final
End value is the generic error string; contrary to the specified
behaviour it contains no note naming the failed branch (the text AI items
search failed, or any Note, never occurs in it), because the failure-notes
block crashes on the unassigned local summary. -/
theorem content_step_bug_at_failed_branch :
    (GenerateNewsletterContentRun c5FailingState).2 =
      "Error generating newsletter: " ++ summaryUnboundLocalMsg ∧
    containsSub "AI items search failed".data
      (GenerateNewsletterContentRun c5FailingState).2.data = false ∧
    containsSub "Note".data (GenerateNewsletterContentRun c5FailingState).2.data = false ∧
    (GenerateNewsletterContentRun c5FailingState).1.arxiv_papers.length = 3 := by
  refine ⟨rfl, ?_, ?_, rfl⟩ <;> decide

/-- C7: get_subscribers keeps exactly the rows whose email column is
nonempty and contains an at sign, each kept row contributing its own
parsed subscriber; dropping a malformed row leaves the subscribers of the
surrounding rows untouched. -/
theorem subscribers_filter_characterization :
    (∀ body : String, get_subscribers body =
      (((pySplit '\n' (pyStrip body.data)).filter validSubscriberLine).map mkSubscriber)) ∧
    (∀ (xs ys : List (List Char)) (bad : List Char), validSubscriberLine bad = false →
      subscribersOfLines (xs ++ bad :: ys) = subscribersOfLines (xs ++ ys)) := by
  constructor
  · intro body
    rw [get_subscribers, subscribersOfLines_eq]
  · intro xs ys bad h
    simp [subscribersOfLines, List.filterMap_append, List.filterMap_cons,
      parseSubscriberLine_eq, h]

/-- Witness for C7: one malformed row between two valid rows is dropped
without affecting them. -/
theorem subscribers_filter_characterization_witness :
    validSubscriberLine "bademail".data = false ∧
    subscribersOfLines (["a@b.com, Alice".data] ++ "bademail".data :: ["c@d.com".data]) =
      subscribersOfLines (["a@b.com, Alice".data] ++ ["c@d.com".data]) :=
  ⟨by decide,
   subscribers_filter_characterization.2 ["a@b.com, Alice".data] ["c@d.com".data]
     "bademail".data (by decide)⟩

/-- C8: the per-recipient try in send_to_subscribers means one failed send
never stops the batch loop, and the returned success count is exactly the
number of subscribers whose send call succeeded. -/
theorem send_to_subscribers_count (ok : Subscriber → Bool) (subs : List Subscriber) :
    send_to_subscribers ok subs = (subs.filter ok).length := by
  rw [send_to_subscribers, sendBatches_eq]
  omega

/-- C9 counterexample: the command line has no run-location parameter:
with --run-location followed by local, argparse does not consume local
for the unknown option, binds it to the positional command where it is an
invalid choice, and errors; the --run-location=value form is reported as
an unrecognized argument. -/
theorem cli_rejects_run_location :
    parse_cli_args ["--run-location", "local"] =
      .error "argument command: invalid choice: local" ∧
    parse_cli_args ["--run-location=local"] =
      .error "unrecognized arguments: --run-location=local" := by
  exact ⟨rfl, rfl⟩

/-- C9 (amended): the command-line entry point accepts a selection among
three modes (no sub-command runs the full generation, test tests agent
connectivity, mermaid prints the workflow diagram) and a model-identifier
parameter (separate-token or =value form, argparse prefix abbreviations,
next to the auto-added --help); it has no run-location parameter choosing
local versus managed-cloud execution: run-location is not an accepted
option in either form and local is not a valid choice of the positional
command. -/
theorem cli_three_modes_and_model_no_run_location :
    (parse_cli_args [] = .ok { model := defaultModel, command := none }) ∧
    (parse_cli_args ["test"] = .ok { model := defaultModel, command := some .test }) ∧
    (parse_cli_args ["mermaid"] = .ok { model := defaultModel, command := some .mermaid }) ∧
    (∀ m : String, isOptionLike m = false →
      parse_cli_args ["--model", m] = .ok { model := m, command := none } ∧
      parse_cli_args ["--model", m, "test"] = .ok { model := m, command := some .test } ∧
      parse_cli_args ["--model", m, "mermaid"] = .ok { model := m, command := some .mermaid }) ∧
    (parse_cli_args ["--model=groq:llama-3.3-70b-versatile"]
      = .ok { model := "groq:llama-3.3-70b-versatile", command := none }) ∧
    (parse_cli_args ["--mod", "gemini-2.0-flash", "test"]
      = .ok { model := "gemini-2.0-flash", command := some .test }) ∧
    (parse_cli_args ["--help"] = .showHelp) ∧
    (mainDispatch none = .generateNewsletter) ∧
    (mainDispatch (some .test) = .testAgents) ∧
    (mainDispatch (some .mermaid) = .mermaidDiagram) ∧
    (parse_cli_args ["--run-location", "local"]
      = .error "argument command: invalid choice: local") ∧
    (parse_cli_args ["--run-location=local"]
      = .error "unrecognized arguments: --run-location=local") ∧
    (parse_cli_args ["--run-location"] = .error "unrecognized arguments: --run-location") ∧
    (parse_cli_args ["local"] = .error "argument command: invalid choice: local") := by
  refine ⟨rfl, rfl, rfl, ?_, rfl, rfl, rfl, rfl, rfl, rfl, rfl, rfl, rfl, rfl⟩
  intro m h
  have e1 : parse_cli_args ["--model", m]
      = if isOptionLike m then CliResult.error "argument --model: expected one argument"
        else CliResult.ok { model := m, command := none } := rfl
  have e2 : parse_cli_args ["--model", m, "test"]
      = if isOptionLike m then CliResult.error "argument --model: expected one argument"
        else CliResult.ok { model := m, command := some .test } := rfl
  have e3 : parse_cli_args ["--model", m, "mermaid"]
      = if isOptionLike m then CliResult.error "argument --model: expected one argument"
        else CliResult.ok { model := m, command := some .mermaid } := rfl
  rw [e1, e2, e3, h]
  exact ⟨rfl, rfl, rfl⟩

/-- Witness for C9 at a concrete model identifier from the option help
text. -/
theorem cli_three_modes_and_model_no_run_location_witness :
    isOptionLike "mistral:mistral-small-latest" = false ∧
    parse_cli_args ["--model", "mistral:mistral-small-latest", "test"]
      = .ok { model := "mistral:mistral-small-latest", command := some .test } :=
  ⟨by decide,
   (cli_three_modes_and_model_no_run_location.2.2.2.1
     "mistral:mistral-small-latest" (by decide)).2.1⟩

/-- C10: every path of the sender lambda handler goes through
create_response, which hard-codes statusCode 200, so callers can never
distinguish success from failure by status code. -/
theorem lambda_handler_always_status_200 (env : SenderEnv) (event : SenderEvent) :
    (lambda_handler env event).statusCode = 200 ∧
    (∀ m : String, (create_response m).statusCode = 200) := by
  constructor
  · unfold lambda_handler
    repeat' split
    all_goals rfl
  · intro m
    rfl

end NewsAgent
